import Mathlib

/-!
Verification of the kali_sse core subsystem against its specification.

The definitions below are a shallow embedding of the Python sources:
  * src/core/task_manager.py   (task lifecycle, queue, admission control)
  * src/core/executor.py       (process execution, timeout, environment)
  * src/protocols/sse_handler.py (event fan-out)
  * src/protocols/message_parser.py and src/mcp_sse_endpoint.py
    (JSON-RPC message validation and dispatch)

Python dicts are modelled as association lists keyed by strings (first
occurrence wins on lookup, matching dict semantics since a Python dict
cannot hold a duplicate key); JSON values as the inductive `JVal`;
floating-point times and progress values as rationals.  Side effects that
no claim refers to (logging, statistics counters) are omitted; calls into
external collaborators (security validator, syntax checker, the OS) are
abstracted as explicit parameters.
-/

namespace KaliSse

/-- A JSON value, as carried inside the Python dicts of the gateway. -/
inductive JVal where
  | jnull : JVal
  | jbool : Bool → JVal
  | jnum : Int → JVal
  | jstr : String → JVal
  | jarr : List JVal → JVal
  | jobj : List (String × JVal) → JVal

/-- `d.get(k)` on a Python dict modelled as an association list. -/
def jlookup (d : List (String × JVal)) (k : String) : Option JVal :=
  List.lookup k d

/-- Python truthiness of a JSON value (`if not x` tests in the sources):
`None`, `False`, `0`, `""`, `[]` and `{}` are falsy. -/
def jfalsy : JVal → Bool
  | JVal.jnull => true
  | JVal.jbool b => !b
  | JVal.jnum n => n == 0
  | JVal.jstr s => s == ""
  | JVal.jarr l => l.isEmpty
  | JVal.jobj l => l.isEmpty

/-- Python truthiness of `d.get(k)`: a missing key is `None`, hence falsy. -/
def jfalsyOpt : Option JVal → Bool
  | none => true
  | some v => jfalsy v

/-- Execution configuration (src/core/config_manager.py lines 71-73):
`default_timeout: int = 300`, `max_timeout: int = 3600`,
`max_concurrent_tasks: int = 20`. -/
structure ExecutionConfig where
  default_timeout : Int := 300
  max_timeout : Int := 3600
  max_concurrent_tasks : Nat := 20
deriving DecidableEq

/-- Task status enumeration (src/core/task_manager.py, class TaskStatus). -/
inductive TaskStatus where
  | pending
  | running
  | completed
  | failed
  | cancelled
  | timeout
deriving Repr, DecidableEq

/-- Task priority enumeration (src/core/task_manager.py, class TaskPriority). -/
inductive TaskPriority where
  | low
  | normal
  | high
  | critical
deriving Repr, DecidableEq

/-- The numeric `.value` of a TaskPriority member (LOW=1 .. CRITICAL=4). -/
def TaskPriority.val : TaskPriority → Nat
  | TaskPriority.low => 1
  | TaskPriority.normal => 2
  | TaskPriority.high => 3
  | TaskPriority.critical => 4

/-- The Task dataclass (src/core/task_manager.py lines 39-58).  Times and
progress are rationals standing for Python floats; `options` and `result`
hold JSON objects. -/
structure Task where
  task_id : String
  command : String
  args : List String := []
  options : List (String × JVal) := []
  status : TaskStatus := TaskStatus.pending
  priority : TaskPriority := TaskPriority.normal
  created_at : ℚ := 0
  started_at : Option ℚ := none
  completed_at : Option ℚ := none
  timeout : Int := 300
  retry_count : Nat := 0
  max_retries : Nat := 0
  result : Option JVal := none
  error : Option String := none
  progress : ℚ := 0
  user_id : Option String := none
  session_id : Option String := none

/-- `Task.is_finished` (src/core/task_manager.py lines 73-77). -/
def Task.is_finished (t : Task) : Bool :=
  t.status == TaskStatus.completed || t.status == TaskStatus.failed ||
  t.status == TaskStatus.cancelled || t.status == TaskStatus.timeout

/-- Python truthiness of `task.completed_at` (a float or `None`): falsy
when `None` or `0.0`. -/
def qOptFalsy : Option ℚ → Bool
  | none => true
  | some q => q == 0

/-- The progress/error/result field updates of
`TaskManager.update_task_status` (src/core/task_manager.py lines
276-283): clamp and store the progress, store the error, store the
result, each only when supplied. -/
def applyFieldUpdates (t1 : Task) (progress : Option ℚ)
    (error : Option String) (result : Option JVal) : Task :=
  let t2 : Task := match progress with
    | some p => { t1 with progress := max 0 (min 1 p) }
    | none => t1
  let t3 : Task := match error with
    | some e => { t2 with error := some e }
    | none => t2
  match result with
  | some r => { t3 with result := some r }
  | none => t3

/-- `TaskManager.update_task_status` (src/core/task_manager.py lines
251-310).  Returns the reported boolean, the updated registry and the
names of the lifecycle events fired.  The function mutates the stored
task in place in Python; here the registry entry is replaced.  Statistics
counters and logging are omitted. -/
def updateTaskStatus (now : ℚ) (tasks : List (String × Task)) (task_id : String)
    (status : TaskStatus) (progress : Option ℚ) (error : Option String)
    (result : Option JVal) : Bool × List (String × Task) × List String :=
  match List.lookup task_id tasks with
  | none => (false, tasks, [])
  | some task =>
    let old_status := task.status
    let t1 : Task := { task with status := status }
    let t4 : Task := applyFieldUpdates t1 progress error result
    let startEv : Task × List String :=
      if status = TaskStatus.running ∧ old_status = TaskStatus.pending then
        ({ t4 with started_at := some now }, ["task_started"])
      else if t4.is_finished ∧ qOptFalsy t4.completed_at then
        let t5 : Task := { t4 with completed_at := some now }
        if status = TaskStatus.completed then (t5, ["task_completed"])
        else if status = TaskStatus.failed then (t5, ["task_failed"])
        else if status = TaskStatus.cancelled then (t5, ["task_cancelled"])
        else (t5, [])
      else (t4, [])
    let events := startEv.2 ++ (if progress.isSome then ["task_progress"] else [])
    (true, tasks.map (fun p => if p.1 = task_id then (p.1, startEv.1) else p), events)

/-- The loop of `TaskManager._add_to_queue` (src/core/task_manager.py
lines 195-202) computing the insertion index: starting from 0, scan the
queue; on the first entry whose priority is strictly below the new
task's, stop at that index, otherwise advance past the entry.  `prio`
maps a queued task id to its priority value via the registry. -/
def insertIndex (prio : String → Nat) (p : Nat) : List String → Nat
  | [] => 0
  | q :: qs => if p > prio q then 0 else insertIndex prio p qs + 1

/-- `TaskManager._add_to_queue` (src/core/task_manager.py lines 186-204):
`self.pending_queue.insert(insert_index, task_id)`. -/
def addToQueue (prio : String → Nat) (task_id : String) (queue : List String) :
    List String :=
  List.insertIdx (insertIndex prio (prio task_id) queue) task_id queue

/-- `TaskManager.get_next_task` (src/core/task_manager.py lines 491-501):
pop the queue head, or `None` when the queue is empty. -/
def getNextTask (queue : List String) : Option String × List String :=
  match queue with
  | [] => (none, [])
  | h :: t => (some h, t)

/-- Mutable state owned by the TaskManager: the task registry
`self.tasks`, the priority queue `self.pending_queue` and the running-set
`self.running_tasks` (here just the set of running task ids). -/
structure ManagerState where
  tasks : List (String × Task)
  pending_queue : List String
  running_tasks : List String

/-- The priority view of a registry used by `_add_to_queue`, which reads
`self.tasks[existing_task_id].priority.value`.  Every queued id is in the
registry in any reachable state, so the default for a missing id is never
exercised. -/
def registryPrio (tasks : List (String × Task)) (tid : String) : Nat :=
  match List.lookup tid tasks with
  | some t => t.priority.val
  | none => 0

/-- `TaskManager.can_accept_new_task` (src/core/task_manager.py lines
480-489): `len(self.running_tasks) + len(self.pending_queue) <
self.config.max_concurrent_tasks`. -/
def canAcceptNewTask (cfg : ExecutionConfig) (st : ManagerState) : Bool :=
  st.running_tasks.length + st.pending_queue.length < cfg.max_concurrent_tasks

/-- `TaskManager.create_task` (src/core/task_manager.py lines 135-184).
The generated `uuid4` is passed in as `newId` and the wall clock as
`now`.  A non-numeric `timeout`/`max_retries` option is not modelled (the
Task dataclass declares them `int`); statistics counters and the
`task_created` callback are omitted. -/
def createTask (cfg : ExecutionConfig) (st : ManagerState) (newId : String)
    (command : String) (args : List String) (options : List (String × JVal))
    (priority : TaskPriority) (user_id session_id : Option String) (now : ℚ) :
    String × ManagerState :=
  let timeout : Int := match jlookup options "timeout" with
    | some (JVal.jnum n) => n
    | _ => cfg.default_timeout
  let max_retries : Nat := match jlookup options "max_retries" with
    | some (JVal.jnum n) => n.toNat
    | _ => 0
  let task : Task :=
    { task_id := newId, command := command, args := args, options := options,
      priority := priority, timeout := timeout, max_retries := max_retries,
      user_id := user_id, session_id := session_id, created_at := now }
  let tasks2 := st.tasks ++ [(newId, task)]
  (newId,
   { tasks := tasks2,
     pending_queue := addToQueue (registryPrio tasks2) newId st.pending_queue,
     running_tasks := st.running_tasks })

/-- The priority map of `MCPServer._execute_command_async`
(src/protocols/mcp_server.py lines 355-361): `priority_map.get(s,
TaskPriority.NORMAL)`. -/
def priorityFromStr (s : String) : TaskPriority :=
  if s = "low" then TaskPriority.low
  else if s = "normal" then TaskPriority.normal
  else if s = "high" then TaskPriority.high
  else if s = "critical" then TaskPriority.critical
  else TaskPriority.normal

/-- The admission prefix of `MCPServer._execute_command_async`
(src/protocols/mcp_server.py lines 343-402): security validation, the
`can_accept_new_task` gate, then `create_task`.  The external validator's
verdict arrives as `valid`/`issues`; the dispatch of the created task
(lines 404-418) is outside this prefix.  `Sum.inl` carries the error dict
returned to the caller, `Sum.inr` the created task id. -/
def executeCommandAdmission (cfg : ExecutionConfig) (valid : Bool)
    (issues : JVal) (st : ManagerState) (newId : String) (command : String)
    (args : List String) (options : List (String × JVal))
    (user_id session_id : Option String) (now : ℚ) :
    (JVal ⊕ String) × ManagerState :=
  let priority_str : String := match jlookup options "priority" with
    | some (JVal.jstr s) => s
    | _ => "normal"
  let priority := priorityFromStr priority_str
  if !valid then
    (Sum.inl (JVal.jobj
      [("success", JVal.jbool false),
       ("error", JVal.jstr "命令验证失败"),
       ("details", issues),
       ("error_type", JVal.jstr "validation_error")]), st)
  else if !(canAcceptNewTask cfg st) then
    (Sum.inl (JVal.jobj
      [("success", JVal.jbool false),
       ("error", JVal.jstr "系统负载过高，无法接受新任务"),
       ("error_type", JVal.jstr "system_overload")]), st)
  else
    let (tid, st2) :=
      createTask cfg st newId command args options priority user_id session_id now
    (Sum.inr tid, st2)

/-- The executor's per-run context (src/core/executor.py, class
ExecutionContext). -/
structure ExecutionContext where
  task_id : String
  command : String
  timeout : Int := 300
  start_time : ℚ := 0
  end_time : Option ℚ := none
  cancelled : Bool := false
  stdout_data : String := ""
  stderr_data : String := ""
  return_code : Option Int := none

/-- Timeout resolution in `CommandExecutor.execute` (src/core/executor.py
lines 93-96): `if timeout is None: timeout = self.config.default_timeout;
timeout = min(timeout, self.config.max_timeout)`. -/
def executeTimeout (timeout : Option Int) (cfg : ExecutionConfig) : Int :=
  let t : Int := match timeout with
    | none => cfg.default_timeout
    | some v => v
  min t cfg.max_timeout

/-- The result dict built by `CommandExecutor._create_success_result`
(src/core/executor.py lines 342-366). -/
structure ExecResult where
  success : Bool
  task_id : String
  command : String
  stdout : String
  stderr : String
  return_code : Option Int
  start_time : ℚ
  end_time : Option ℚ
  duration : ℚ
  cancelled : Bool
  timeout : Int

/-- The exact key set of the dict literal returned by
`CommandExecutor._create_success_result` (src/core/executor.py lines
354-366) — every run that completes or times out is reported through this
shape. -/
def createSuccessResultKeys : List String :=
  ["success", "task_id", "command", "stdout", "stderr", "return_code",
   "start_time", "end_time", "duration", "cancelled", "timeout"]

/-- `CommandExecutor._create_success_result` (src/core/executor.py lines
342-366); `now` stands for the `time.time()` fallback when `end_time` is
unset. -/
def createSuccessResult (now : ℚ) (ctx : ExecutionContext) : ExecResult :=
  { success := ctx.return_code == some 0,
    task_id := ctx.task_id,
    command := ctx.command,
    stdout := ctx.stdout_data,
    stderr := ctx.stderr_data,
    return_code := ctx.return_code,
    start_time := ctx.start_time,
    end_time := ctx.end_time,
    duration := (ctx.end_time.getD now) - ctx.start_time,
    cancelled := ctx.cancelled,
    timeout := ctx.timeout }

/-- Signals sent by `_terminate_process`. -/
inductive Signal where
  | sigterm
  | sigkill
deriving Repr, DecidableEq

/-- The grace period of `_terminate_process`: `process.wait(timeout=5)`
(src/core/executor.py line 331). -/
def gracePeriod : Nat := 5

/-- `CommandExecutor._terminate_process` (src/core/executor.py lines
317-340) as the list of signals sent to the child process:
nothing when `poll()` reports the process already exited; otherwise
`terminate()`, and additionally `kill()` when the process has not exited
within the grace period.  The target is the single process — the source
never calls `os.killpg`. -/
def terminateProcess (stillRunning diesWithinGrace : Bool) : List Signal :=
  if stillRunning then
    if diesWithinGrace then [Signal.sigterm]
    else [Signal.sigterm, Signal.sigkill]
  else []

/-- The `subprocess.TimeoutExpired` branch of
`CommandExecutor._execute_command` (src/core/executor.py lines 182-193):
terminate the process, overwrite the captured output with fixed timeout
messages, force `return_code = -1`, then build the result through
`_create_success_result`.  Returns the signals sent and the result. -/
def timeoutBranch (ctx : ExecutionContext) (stillRunning diesWithinGrace : Bool)
    (end_time : ℚ) : List Signal × ExecResult :=
  let ctx2 : ExecutionContext :=
    { ctx with
      stdout_data := "命令执行超时",
      stderr_data := "执行超时 (" ++ toString ctx.timeout ++ "秒)",
      return_code := some (-1),
      end_time := some end_time }
  (terminateProcess stillRunning diesWithinGrace, createSuccessResult end_time ctx2)

/-- `dict[k] = v` on a Python dict modelled as an association list:
overwrite in place when the key exists, append otherwise. -/
def dictSet (env : List (String × String)) (k v : String) :
    List (String × String) :=
  if (List.lookup k env).isSome then
    env.map (fun p => if p.1 = k then (p.1, v) else p)
  else env ++ [(k, v)]

/-- `env.update(upd)` on Python dicts. -/
def dictUpdate (env upd : List (String × String)) : List (String × String) :=
  upd.foldl (fun e p => dictSet e p.1 p.2) env

/-- The restricted PATH list of `_prepare_environment`
(src/core/executor.py lines 270-277). -/
def safePaths : List String :=
  ["/usr/local/sbin", "/usr/local/bin", "/usr/sbin", "/usr/bin", "/sbin", "/bin"]

/-- `CommandExecutor._prepare_environment` (src/core/executor.py lines
251-280): `env = os.environ.copy()`, then `env.update(self.config.
environment)`, then `LC_ALL`, `LANG` and `PATH` are overwritten.
`parentEnv` is the parent process environment, `cfgEnv` the configured
extra variables. -/
def prepareEnvironment (parentEnv cfgEnv : List (String × String)) :
    List (String × String) :=
  dictSet
    (dictSet
      (dictSet (dictUpdate parentEnv cfgEnv) "LC_ALL" "C")
      "LANG" "C")
    "PATH" (String.intercalate ":" safePaths)

/-- An event as enqueued by `SSEConnection.send_event`
(src/protocols/sse_handler.py lines 40-45). -/
structure SSEEvent where
  event : String
  data : List (String × JVal)
  timestamp : ℚ
  connection_id : String

/-- An SSE connection (src/protocols/sse_handler.py, class
SSEConnection): per-connection subscription set, private queue, active
flag.  The unbounded `asyncio.Queue` is a list; `put` appends. -/
structure SSEConnection where
  connection_id : String
  created_at : ℚ := 0
  last_ping : ℚ := 0
  subscriptions : List String := []
  queue : List SSEEvent := []
  active : Bool := true

/-- `SSEConnection.send_event` (src/protocols/sse_handler.py lines
34-48): a no-op on an inactive connection, otherwise enqueue the event
onto this connection's own queue.  `await queue.put` on an unbounded
queue returns immediately, so the enqueue is a pure append. -/
def sendEvent (now : ℚ) (c : SSEConnection) (event_type : String)
    (d : List (String × JVal)) : SSEConnection :=
  if !c.active then c
  else { c with queue := c.queue ++
          [{ event := event_type, data := d, timestamp := now,
             connection_id := c.connection_id }] }

/-- `SSEConnection.is_subscribed` (src/protocols/sse_handler.py lines
58-60). -/
def isSubscribed (c : SSEConnection) (event_type : String) : Bool :=
  c.subscriptions.contains event_type || c.subscriptions.contains "*"

/-- `SSEHandler.broadcast_event` (src/protocols/sse_handler.py lines
156-195).  The registry `self.connections` is a dict keyed by
`connection_id`, so its values carry pairwise-distinct ids.  Without
targets the subscribed connections receive the event; with targets, each
occurrence of a registered id in the target list triggers one
`send_event` on that connection.  `send_event` itself skips inactive
connections.  Event statistics are omitted. -/
def broadcastEvent (now : ℚ) (event_type : String) (d : List (String × JVal))
    (target_connections : Option (List String)) (conns : List SSEConnection) :
    List SSEConnection :=
  if conns.isEmpty then conns
  else
    match target_connections with
    | none =>
      conns.map (fun c =>
        if isSubscribed c event_type then sendEvent now c event_type d else c)
    | some ts =>
      ts.foldl (fun acc tid =>
        acc.map (fun c =>
          if c.connection_id = tid then sendEvent now c event_type d else c)) conns

/-- The parsed MCP message (src/protocols/message_parser.py, class
MCPMessage): optional id, method, params, result, error. -/
structure MCPMessage where
  id : Option JVal := none
  method : Option String := none
  params : Option (List (String × JVal)) := none
  result : Option JVal := none
  error : Option JVal := none

/-- Keys admitted by the request schema (`additionalProperties: False`,
src/protocols/message_parser.py lines 37-47). -/
def allowedRequestKeys : List String := ["jsonrpc", "id", "method", "params"]

/-- Keys admitted by the response schema (src/protocols/message_parser.py
lines 48-70). -/
def allowedResponseKeys : List String := ["jsonrpc", "id", "result", "error"]

/-- The jsonschema "request" validation (src/protocols/message_parser.py
lines 37-47): `jsonrpc` equal to "2.0" and `method` a string are
required; `id` if present is a string or number; `params` if present is
an object; no other keys. -/
def requestSchemaOk (d : List (String × JVal)) : Bool :=
  (match jlookup d "jsonrpc" with
    | some (JVal.jstr s) => s == "2.0"
    | _ => false) &&
  (match jlookup d "method" with
    | some (JVal.jstr _) => true
    | _ => false) &&
  (match jlookup d "id" with
    | none => true
    | some (JVal.jstr _) => true
    | some (JVal.jnum _) => true
    | some _ => false) &&
  (match jlookup d "params" with
    | none => true
    | some (JVal.jobj _) => true
    | some _ => false) &&
  d.all (fun p => allowedRequestKeys.contains p.1)

/-- The jsonschema "response" validation (src/protocols/message_parser.py
lines 48-70): `jsonrpc` = "2.0" and an `id` (string or number) are
required, `error` if present is an object carrying an integer `code` and
a string `message`, the `oneOf` clause demands exactly one of
`result`/`error`, and no other keys are admitted. -/
def responseSchemaOk (d : List (String × JVal)) : Bool :=
  (match jlookup d "jsonrpc" with
    | some (JVal.jstr s) => s == "2.0"
    | _ => false) &&
  (match jlookup d "id" with
    | some (JVal.jstr _) => true
    | some (JVal.jnum _) => true
    | _ => false) &&
  (match jlookup d "error" with
    | none => true
    | some (JVal.jobj e) =>
      (match jlookup e "code" with
        | some (JVal.jnum _) => true
        | _ => false) &&
      (match jlookup e "message" with
        | some (JVal.jstr _) => true
        | _ => false)
    | some _ => false) &&
  ((jlookup d "result").isSome != (jlookup d "error").isSome) &&
  d.all (fun p => allowedResponseKeys.contains p.1)

/-- `MessageParser._validate_message_structure`
(src/protocols/message_parser.py lines 111-133): a dict carrying a
`method` key is checked against the request schema, one carrying `result`
or `error` against the response schema, and anything else raises "无法确
定消息类型". -/
def validateMessageStructure (d : List (String × JVal)) : Except String Unit :=
  if (jlookup d "method").isSome then
    if requestSchemaOk d then Except.ok () else Except.error "消息结构验证失败"
  else if (jlookup d "result").isSome || (jlookup d "error").isSome then
    if responseSchemaOk d then Except.ok () else Except.error "消息结构验证失败"
  else Except.error "无法确定消息类型"

/-- `MessageParser.parse_message` (src/protocols/message_parser.py lines
73-109) on an already-decoded dict: structure validation, then the
pydantic `MCPMessage(**message_dict)` construction.  A `ValueError`
raised during validation is re-raised through the generic handler with
the "消息解析异常" prefix. -/
def parseMessage (d : List (String × JVal)) : Except String MCPMessage :=
  match validateMessageStructure d with
  | Except.error e => Except.error ("消息解析异常: " ++ e)
  | Except.ok _ =>
    Except.ok
      { id := jlookup d "id",
        method := match jlookup d "method" with
          | some (JVal.jstr s) => some s
          | _ => none,
        params := match jlookup d "params" with
          | some (JVal.jobj f) => some f
          | _ => none,
        result := jlookup d "result",
        error := jlookup d "error" }

/- A compact JSON rendering standing for `json.dumps` in the tool-call
response envelope (the `indent=2` whitespace of the source is not
reproduced; no claim inspects this text). -/
mutual

def jdump : JVal → String
  | JVal.jnull => "null"
  | JVal.jbool true => "true"
  | JVal.jbool false => "false"
  | JVal.jnum n => toString n
  | JVal.jstr s => "\"" ++ s ++ "\""
  | JVal.jarr l => "[" ++ jdumpList l ++ "]"
  | JVal.jobj l => "\x7b" ++ jdumpObj l ++ "\x7d"

def jdumpList : List JVal → String
  | [] => ""
  | [v] => jdump v
  | v :: vs => jdump v ++ ", " ++ jdumpList vs

def jdumpObj : List (String × JVal) → String
  | [] => ""
  | [(k, v)] => "\"" ++ k ++ "\": " ++ jdump v
  | (k, v) :: vs => "\"" ++ k ++ "\": " ++ jdump v ++ ", " ++ jdumpObj vs

end

/-- External collaborators consumed by the tool handlers of
src/mcp_sse_endpoint.py once their argument checks have passed: the
security validator plus executor behind `_execute_command` (lines
244-270), the validator plus syntax checker behind `_validate_command`
(lines 279-297), and the tool inventory behind `_list_supported_tools`
(lines 299-320).  All three Python callees return dicts and raise
nothing past the argument checks, so they are abstracted as total
functions producing the result dict. -/
structure Ext where
  executeTool : List (String × JVal) → JVal
  validateTool : List (String × JVal) → JVal
  listToolsResult : JVal

/-- `MCPSSEConnection._create_error_response` (src/mcp_sse_endpoint.py
lines 342-352); a `None` request id becomes JSON null. -/
def errorResponse (request_id : Option JVal) (code : Int) (msg : String) : JVal :=
  JVal.jobj
    [("jsonrpc", JVal.jstr "2.0"),
     ("id", request_id.getD JVal.jnull),
     ("error", JVal.jobj
       [("code", JVal.jnum code),
        ("message", JVal.jstr msg)])]

/-- `MCPSSEConnection._handle_initialize` (src/mcp_sse_endpoint.py lines
100-127); the protocol-version comparison only logs, and the
`self.initialized` flag is connection state no claim refers to. -/
def initializeResponse (m : MCPMessage) : JVal :=
  JVal.jobj
    [("jsonrpc", JVal.jstr "2.0"),
     ("id", m.id.getD JVal.jnull),
     ("result", JVal.jobj
       [("protocolVersion", JVal.jstr "2024-11-05"),
        ("capabilities", JVal.jobj
          [("tools", JVal.jobj [("listChanged", JVal.jbool false)]),
           ("resources", JVal.jobj
             [("subscribe", JVal.jbool false),
              ("listChanged", JVal.jbool false)]),
           ("prompts", JVal.jobj [("listChanged", JVal.jbool false)]),
           ("logging", JVal.jobj [])]),
        ("serverInfo", JVal.jobj
          [("name", JVal.jstr "kali-sse-mcp"),
           ("version", JVal.jstr "1.0.0")])])]

/-- The tool declarations of `_handle_tools_list` (src/mcp_sse_endpoint.py
lines 133-163); the `execute_command` schema declares `command` as its
sole required argument. -/
def toolsListTools : JVal :=
  JVal.jarr
    [JVal.jobj
      [("name", JVal.jstr "execute_command"),
       ("description", JVal.jstr "执行Kali Linux安全工具命令"),
       ("inputSchema", JVal.jobj
         [("type", JVal.jstr "object"),
          ("properties", JVal.jobj
            [("command", JVal.jobj
               [("type", JVal.jstr "string"),
                ("description", JVal.jstr "要执行的命令")]),
             ("args", JVal.jobj
               [("type", JVal.jstr "array"),
                ("items", JVal.jobj [("type", JVal.jstr "string")]),
                ("description", JVal.jstr "命令参数")]),
             ("options", JVal.jobj
               [("type", JVal.jstr "object"),
                ("description", JVal.jstr "执行选项")])]),
          ("required", JVal.jarr [JVal.jstr "command"])])],
     JVal.jobj
      [("name", JVal.jstr "validate_command"),
       ("description", JVal.jstr "验证命令的安全性和语法"),
       ("inputSchema", JVal.jobj
         [("type", JVal.jstr "object"),
          ("properties", JVal.jobj
            [("command", JVal.jobj
               [("type", JVal.jstr "string"),
                ("description", JVal.jstr "要验证的命令")])]),
          ("required", JVal.jarr [JVal.jstr "command"])])],
     JVal.jobj
      [("name", JVal.jstr "list_supported_tools"),
       ("description", JVal.jstr "列出支持的安全工具"),
       ("inputSchema", JVal.jobj
         [("type", JVal.jstr "object"),
          ("properties", JVal.jobj [])])]]

/-- `MCPSSEConnection._handle_tools_list` (src/mcp_sse_endpoint.py lines
129-169). -/
def toolsListResponse (m : MCPMessage) : JVal :=
  JVal.jobj
    [("jsonrpc", JVal.jstr "2.0"),
     ("id", m.id.getD JVal.jnull),
     ("result", JVal.jobj [("tools", toolsListTools)])]

/-- `MCPSSEConnection._handle_resources_list` (src/mcp_sse_endpoint.py
lines 214-220). -/
def resourcesListResponse (m : MCPMessage) : JVal :=
  JVal.jobj
    [("jsonrpc", JVal.jstr "2.0"),
     ("id", m.id.getD JVal.jnull),
     ("result", JVal.jobj [("resources", JVal.jarr [])])]

/-- `MCPSSEConnection._handle_prompts_list` (src/mcp_sse_endpoint.py
lines 222-228). -/
def promptsListResponse (m : MCPMessage) : JVal :=
  JVal.jobj
    [("jsonrpc", JVal.jstr "2.0"),
     ("id", m.id.getD JVal.jnull),
     ("result", JVal.jobj [("prompts", JVal.jarr [])])]

/-- `MCPSSEConnection._execute_command` (src/mcp_sse_endpoint.py lines
230-270): a missing or falsy `command` argument raises
`ValueError("缺少命令参数")`; a non-dict `arguments` value raises at
`arguments.get` (AttributeError).  Past those checks the validator and
executor produce the result dict (`Ext.executeTool`). -/
def executeCommandTool (ext : Ext) (argumentsVal : JVal) : Except String JVal :=
  match argumentsVal with
  | JVal.jobj args =>
    if jfalsyOpt (jlookup args "command") then Except.error "缺少命令参数"
    else Except.ok (ext.executeTool args)
  | _ => Except.error "对象没有 get 属性"

/-- `MCPSSEConnection._validate_command` (src/mcp_sse_endpoint.py lines
272-297): same missing-`command` check, then validator plus syntax
checker (`Ext.validateTool`). -/
def validateCommandTool (ext : Ext) (argumentsVal : JVal) : Except String JVal :=
  match argumentsVal with
  | JVal.jobj args =>
    if jfalsyOpt (jlookup args "command") then Except.error "缺少命令参数"
    else Except.ok (ext.validateTool args)
  | _ => Except.error "对象没有 get 属性"

/-- The success envelope of `_handle_tools_call` (src/mcp_sse_endpoint.py
lines 193-204) around a tool result, and its `except Exception` handler
(lines 206-212) which turns any raised tool error into an
INTERNAL_ERROR (-32603) response. -/
def wrapToolOutcome (request_id : Option JVal) (outcome : Except String JVal) :
    JVal :=
  match outcome with
  | Except.ok r =>
    JVal.jobj
      [("jsonrpc", JVal.jstr "2.0"),
       ("id", request_id.getD JVal.jnull),
       ("result", JVal.jobj
         [("content", JVal.jarr
           [JVal.jobj
             [("type", JVal.jstr "text"),
              ("text", JVal.jstr (jdump r))]])])]
  | Except.error e => errorResponse request_id (-32603) ("工具调用失败: " ++ e)

/-- `MCPSSEConnection._handle_tools_call` (src/mcp_sse_endpoint.py lines
171-212): read `name` and `arguments` from the params (defaulting
`arguments` to the empty dict), dispatch on the tool name, answer an
unknown tool with INVALID_PARAMS (-32602). -/
def toolsCallResponse (ext : Ext) (m : MCPMessage) : JVal :=
  let params := m.params.getD []
  let argumentsVal := (jlookup params "arguments").getD (JVal.jobj [])
  match jlookup params "name" with
  | some (JVal.jstr "execute_command") =>
    wrapToolOutcome m.id (executeCommandTool ext argumentsVal)
  | some (JVal.jstr "validate_command") =>
    wrapToolOutcome m.id (validateCommandTool ext argumentsVal)
  | some (JVal.jstr "list_supported_tools") =>
    wrapToolOutcome m.id (Except.ok ext.listToolsResult)
  | other => errorResponse m.id (-32602)
      ("未知工具: " ++ (match other with
        | some v => jdump v
        | none => "None"))

/-- `MCPSSEConnection.handle_message` (src/mcp_sse_endpoint.py lines
66-98): parse, dispatch on the method, answer an unknown method with
METHOD_NOT_FOUND (-32601); any exception — including a parse failure — is
answered with INTERNAL_ERROR (-32603) under the raw message's id.  The
Python signature is `Optional[Dict]`, mirrored by the `Option`. -/
def handleMessage (ext : Ext) (d : List (String × JVal)) : Option JVal :=
  match parseMessage d with
  | Except.error e =>
    some (errorResponse (jlookup d "id") (-32603) ("内部错误: " ++ e))
  | Except.ok m =>
    match m.method with
    | some "initialize" => some (initializeResponse m)
    | some "tools/list" => some (toolsListResponse m)
    | some "tools/call" => some (toolsCallResponse ext m)
    | some "resources/list" => some (resourcesListResponse m)
    | some "prompts/list" => some (promptsListResponse m)
    | other => some (errorResponse m.id (-32601)
        ("未知方法: " ++ other.getD "None"))

/-- The send decision of `MCPSSEHandler.handle_message`
(src/mcp_sse_endpoint.py lines 423-432): `if response:
await connection.send_message(response)` — a response is pushed to the
client's queue exactly when `handle_message` returned a truthy value. -/
def sendsResponse (ext : Ext) (d : List (String × JVal)) : Bool :=
  match handleMessage ext d with
  | none => false
  | some r => !(jfalsy r)

/-- The POST endpoint `mcp_sse_message` (src/protocols/mcp_server.py
lines 167-195) behind `MCPSSEHandler.handle_direct_message`
(src/mcp_sse_endpoint.py lines 434-454): return the handler's response
when truthy, otherwise a default empty result envelope — the HTTP caller
always receives a reply. -/
def mcpSsePostReply (ext : Ext) (d : List (String × JVal)) : JVal :=
  match handleMessage ext d with
  | some r =>
    if jfalsy r then
      JVal.jobj
        [("jsonrpc", JVal.jstr "2.0"),
         ("id", (jlookup d "id").getD JVal.jnull),
         ("result", JVal.jobj [])]
    else r
  | none =>
    JVal.jobj
      [("jsonrpc", JVal.jstr "2.0"),
       ("id", (jlookup d "id").getD JVal.jnull),
       ("result", JVal.jobj [])]

/-- A concrete terminal task: already Completed at time 5. -/
def task0 : Task :=
  { task_id := "t", command := "echo hi", status := TaskStatus.completed,
    completed_at := some 5 }

/-- A concrete priority view: task "a" has priority 3, all others 2. -/
def prio0 : String → Nat := fun s => if s = "a" then 3 else 2

/-- A dummy collaborator bundle: the claims about the gateway's error
paths never reach the validator or the executor. -/
def extDummy : Ext :=
  { executeTool := fun _ => JVal.jnull,
    validateTool := fun _ => JVal.jnull,
    listToolsResult := JVal.jnull }

/-- The JSON-RPC error code carried by a (possible) response value. -/
def responseErrorCode (r : Option JVal) : Option Int :=
  match r with
  | some (JVal.jobj fields) =>
    (match jlookup fields "error" with
      | some (JVal.jobj e) =>
        (match jlookup e "code" with
          | some (JVal.jnum c) => some c
          | _ => none)
      | _ => none)
  | _ => none

/-- A tools/call request for execute_command whose arguments dict lacks
the `command` field. -/
def msgNoCommand : List (String × JVal) :=
  [("jsonrpc", JVal.jstr "2.0"),
   ("id", JVal.jnum 7),
   ("method", JVal.jstr "tools/call"),
   ("params", JVal.jobj
     [("name", JVal.jstr "execute_command"),
      ("arguments", JVal.jobj [])])]

/-- A notification: carries a method but no id. -/
def notifToolsList : List (String × JVal) :=
  [("jsonrpc", JVal.jstr "2.0"), ("method", JVal.jstr "tools/list")]

/-- Claim C10: for every synchronous execute call, the timeout enforced on
the child process is the minimum of the requested timeout and the
configured `max_timeout` (the configured default standing in when no
timeout is requested), hence never exceeds `max_timeout`. -/
theorem C10_effective_timeout (t : Option Int) (cfg : ExecutionConfig) :
    executeTimeout t cfg = min (t.getD cfg.default_timeout) cfg.max_timeout ∧
    executeTimeout t cfg ≤ cfg.max_timeout := by
  refine ⟨?_, ?_⟩
  · cases t <;> rfl
  · cases t <;> exact min_le_right _ _

/-- Claim C2: a submit request that passes validation while the active
(pending plus running) count is at or above `max_concurrent_tasks` is
answered with the system_overload rejection dict, and the manager state —
registry, pending queue, running set — is returned unchanged: no task is
created and the queue is not mutated. -/
theorem C2_overload_rejected (cfg : ExecutionConfig) (st : ManagerState)
    (newId command : String) (args : List String)
    (options : List (String × JVal)) (uid sid : Option String) (now : ℚ)
    (issues : JVal)
    (hover : cfg.max_concurrent_tasks ≤
      st.running_tasks.length + st.pending_queue.length) :
    executeCommandAdmission cfg true issues st newId command args options
        uid sid now =
      (Sum.inl (JVal.jobj
        [("success", JVal.jbool false),
         ("error", JVal.jstr "系统负载过高，无法接受新任务"),
         ("error_type", JVal.jstr "system_overload")]), st) := by
  have hacc : canAcceptNewTask cfg st = false := by
    simp [canAcceptNewTask, Nat.not_lt.mpr hover]
  simp [executeCommandAdmission, hacc]

/-- Witness for C2 at a concrete overloaded state: capacity 1, one task
already running. -/
theorem C2_overload_rejected_witness :
    executeCommandAdmission { max_concurrent_tasks := 1 } true JVal.jnull
        { tasks := [], pending_queue := [], running_tasks := ["r1"] }
        "id2" "echo hi" [] [] none none 0 =
      (Sum.inl (JVal.jobj
        [("success", JVal.jbool false),
         ("error", JVal.jstr "系统负载过高，无法接受新任务"),
         ("error_type", JVal.jstr "system_overload")]),
       { tasks := [], pending_queue := [], running_tasks := ["r1"] }) :=
  C2_overload_rejected { max_concurrent_tasks := 1 }
    { tasks := [], pending_queue := [], running_tasks := ["r1"] }
    "id2" "echo hi" [] [] none none 0 JVal.jnull (by decide)

/-- Counterexample to claim C3 as stated: the result dict a timed-out run
is reported through (`_create_success_result`) carries no dedicated
timed-out marker — neither a `timedOut` nor a `timed_out` key exists in
its key set, so the result is not "marked as timed out"; timeout is only
inferable from the sentinel return code and message text. -/
theorem C3_counterexample :
    ¬ ("timedOut" ∈ createSuccessResultKeys ∨
       "timed_out" ∈ createSuccessResultKeys) := by
  decide

/-- Claim C3 as amended: on timeout the executor runs the
terminate → grace → kill sequence against the child process (terminate
only when it dies within the 5-second grace period, terminate then kill
when it does not, nothing when it already exited), and the returned
result carries the sentinel `return_code = -1` (never a real exit code),
`success = false`, and fixed timeout messages as stdout/stderr — but no
dedicated timed-out flag. -/
theorem C3_timeout_result (ctx : ExecutionContext)
    (stillRunning diesWithinGrace : Bool) (t : ℚ) :
    (timeoutBranch ctx stillRunning diesWithinGrace t).2.return_code
        = some (-1) ∧
    (timeoutBranch ctx stillRunning diesWithinGrace t).2.success = false ∧
    (timeoutBranch ctx stillRunning diesWithinGrace t).2.stdout
        = "命令执行超时" ∧
    (timeoutBranch ctx stillRunning diesWithinGrace t).2.stderr
        = "执行超时 (" ++ toString ctx.timeout ++ "秒)" ∧
    (timeoutBranch ctx stillRunning diesWithinGrace t).1
        = terminateProcess stillRunning diesWithinGrace ∧
    terminateProcess true true = [Signal.sigterm] ∧
    terminateProcess true false = [Signal.sigterm, Signal.sigkill] ∧
    terminateProcess false diesWithinGrace = [] ∧
    gracePeriod = 5 := by
  refine ⟨rfl, by simp [timeoutBranch, createSuccessResult], rfl, rfl, rfl,
    rfl, rfl, rfl, rfl⟩

/-- Counterexample to claim C5 as stated: the child environment is not
rebuilt from a minimal safe set — a parent variable `SECRET_TOKEN`
survives `_prepare_environment` untouched, because the function copies
the whole parent environment before overriding `PATH`/`LC_ALL`/`LANG`. -/
theorem C5_counterexample :
    ¬ (∀ kv ∈ prepareEnvironment [("SECRET_TOKEN", "hunter2")] [],
        kv.1 ∈ ["PATH", "LC_ALL", "LANG"]) := by
  intro h
  have := h ("SECRET_TOKEN", "hunter2") (by decide)
  simp at this

/-- Unfolding `List.lookup` over a cons cell with propositional equality. -/
theorem lookup_cons_split {b : Type} (a : String × b) (l : List (String × b))
    (q : String) :
    List.lookup q (a :: l) = if q = a.1 then some a.2 else List.lookup q l := by
  by_cases h : q = a.1
  · simp [List.lookup, h]
  · have hb : (q == a.1) = false := beq_eq_false_iff_ne.mpr h
    simp [List.lookup, hb, h]

/-- `List.lookup` over an append tries the left list first. -/
theorem lookup_append_split {b : Type} (l1 l2 : List (String × b)) (q : String) :
    List.lookup q (l1 ++ l2) =
      (match List.lookup q l1 with
        | some w => some w
        | none => List.lookup q l2) := by
  induction l1 with
  | nil => simp [List.lookup]
  | cons a l ih =>
    rw [List.cons_append, lookup_cons_split, lookup_cons_split]
    by_cases h : q = a.1 <;> simp [h, ih]

/-- `List.lookup` after overwriting every entry keyed `k` with value `v`. -/
theorem lookup_map_overwrite {b : Type} (env : List (String × b)) (k : String)
    (v : b) (q : String) :
    List.lookup q (env.map (fun p => if p.1 = k then (p.1, v) else p)) =
      (List.lookup q env).map (fun w => if q = k then v else w) := by
  induction env with
  | nil => simp [List.lookup]
  | cons a l ih =>
    rw [List.map_cons, lookup_cons_split, lookup_cons_split]
    by_cases hq : q = a.1
    · by_cases hk : a.1 = k <;> simp [hq, hk]
    · have : (if a.1 = k then (a.1, v) else a).1 = a.1 := by
        by_cases hk : a.1 = k <;> simp [hk]
      rw [this, if_neg hq, if_neg hq, ih]

/-- Overwriting key `k` makes it look up to `v`. -/
theorem lookup_dictSet_self (env : List (String × String)) (k v : String) :
    List.lookup k (dictSet env k v) = some v := by
  unfold dictSet
  split
  · rename_i hsome
    obtain ⟨w, hw⟩ := Option.isSome_iff_exists.mp hsome
    rw [lookup_map_overwrite, hw]
    simp
  · rename_i hnone
    have hn : List.lookup k env = none := by
      cases h : List.lookup k env with
      | none => rfl
      | some w => rw [h] at hnone; simp at hnone
    rw [lookup_append_split, hn, lookup_cons_split]
    simp

/-- Overwriting key `k` leaves the lookup of any other key unchanged. -/
theorem lookup_dictSet_ne (env : List (String × String)) (k v q : String)
    (hq : q ≠ k) :
    List.lookup q (dictSet env k v) = List.lookup q env := by
  unfold dictSet
  split
  · rw [lookup_map_overwrite]
    cases List.lookup q env <;> simp [if_neg hq]
  · rw [lookup_append_split]
    cases h : List.lookup q env with
    | some w => rfl
    | none => rw [lookup_cons_split, if_neg hq]; rfl

/-- `env.update(upd)` leaves keys outside `upd` unchanged. -/
theorem lookup_dictUpdate_notin (env upd : List (String × String)) (q : String)
    (hq : ∀ kv ∈ upd, kv.1 ≠ q) :
    List.lookup q (dictUpdate env upd) = List.lookup q env := by
  induction upd generalizing env with
  | nil => rfl
  | cons a l ih =>
    have h1 : List.lookup q (dictSet env a.1 a.2) = List.lookup q env :=
      lookup_dictSet_ne env a.1 a.2 q
        (fun hc => hq a (List.mem_cons_self a l) hc.symm)
    calc List.lookup q (dictUpdate (dictSet env a.1 a.2) l)
        = List.lookup q (dictSet env a.1 a.2) :=
          ih (dictSet env a.1 a.2) (fun kv hkv => hq kv (List.mem_cons_of_mem a hkv))
      _ = List.lookup q env := h1

/-- Claim C5 as amended: `_prepare_environment` inherits the parent
environment wholesale and then merges the configured variables and
overrides `PATH` (to the fixed safe list), `LC_ALL` and `LANG` (to "C");
every other parent variable is passed through to the child unchanged. -/
theorem C5_env_inherited (parentEnv cfgEnv : List (String × String)) (q : String)
    (h1 : q ≠ "PATH") (h2 : q ≠ "LC_ALL") (h3 : q ≠ "LANG")
    (h4 : ∀ kv ∈ cfgEnv, kv.1 ≠ q) :
    List.lookup "PATH" (prepareEnvironment parentEnv cfgEnv)
        = some (String.intercalate ":" safePaths) ∧
    List.lookup "LC_ALL" (prepareEnvironment parentEnv cfgEnv) = some "C" ∧
    List.lookup "LANG" (prepareEnvironment parentEnv cfgEnv) = some "C" ∧
    List.lookup q (prepareEnvironment parentEnv cfgEnv)
        = List.lookup q parentEnv := by
  unfold prepareEnvironment
  refine ⟨lookup_dictSet_self _ _ _, ?_, ?_, ?_⟩
  · rw [lookup_dictSet_ne _ _ _ _ (by decide)]
    rw [lookup_dictSet_ne _ _ _ _ (by decide)]
    exact lookup_dictSet_self _ _ _
  · rw [lookup_dictSet_ne _ _ _ _ (by decide)]
    exact lookup_dictSet_self _ _ _
  · rw [lookup_dictSet_ne _ _ _ _ h1, lookup_dictSet_ne _ _ _ _ h3,
      lookup_dictSet_ne _ _ _ _ h2]
    exact lookup_dictUpdate_notin parentEnv cfgEnv q h4

/-- Witness for C5's amended theorem at a concrete parent environment. -/
theorem C5_env_inherited_witness :
    List.lookup "PATH"
        (prepareEnvironment [("HOME", "/root"), ("PATH", "/evil")] [])
        = some (String.intercalate ":" safePaths) ∧
    List.lookup "LC_ALL"
        (prepareEnvironment [("HOME", "/root"), ("PATH", "/evil")] [])
        = some "C" ∧
    List.lookup "LANG"
        (prepareEnvironment [("HOME", "/root"), ("PATH", "/evil")] [])
        = some "C" ∧
    List.lookup "HOME"
        (prepareEnvironment [("HOME", "/root"), ("PATH", "/evil")] [])
        = List.lookup "HOME" [("HOME", "/root"), ("PATH", "/evil")] :=
  C5_env_inherited [("HOME", "/root"), ("PATH", "/evil")] [] "HOME"
    (by decide) (by decide) (by decide) (by intro kv hkv; simp at hkv)

/-- Counterexample to claim C1 as stated: `update_task_status` applies a
post-terminal update and reports it as true.  On a registry holding one
Completed task, an update to Running is applied (status becomes Running)
and reported true, and a subsequent update to Cancelled is also applied —
the same task reaches two distinct terminal statuses (Completed, then
Cancelled), each reported true, contradicting "rejected as a no-op and
reported as false". -/
theorem C1_counterexample :
    (updateTaskStatus 9 [("t", task0)] "t" TaskStatus.running
        none none none).1 = true ∧
    (List.lookup "t" (updateTaskStatus 9 [("t", task0)] "t" TaskStatus.running
        none none none).2.1).map Task.status = some TaskStatus.running ∧
    (updateTaskStatus 9 [("t", task0)] "t" TaskStatus.cancelled
        none none none).1 = true ∧
    (List.lookup "t" (updateTaskStatus 9 [("t", task0)] "t" TaskStatus.cancelled
        none none none).2.1).map Task.status = some TaskStatus.cancelled := by
  refine ⟨rfl, rfl, rfl, rfl⟩

/-- The field updates of lines 276-283 never touch the status. -/
theorem applyFieldUpdates_status (t1 : Task) (p : Option ℚ) (e : Option String)
    (r : Option JVal) : (applyFieldUpdates t1 p e r).status = t1.status := by
  unfold applyFieldUpdates
  cases p <;> cases e <;> cases r <;> rfl

/-- The field updates of lines 276-283 never touch `completed_at`. -/
theorem applyFieldUpdates_completed_at (t1 : Task) (p : Option ℚ)
    (e : Option String) (r : Option JVal) :
    (applyFieldUpdates t1 p e r).completed_at = t1.completed_at := by
  unfold applyFieldUpdates
  cases p <;> cases e <;> cases r <;> rfl

/-- Claim C1 as amended: `update_task_status` performs no transition
validation — for any existing task it applies whatever status is
requested and reports true (false is reported only for an unknown task
id), so invalid and post-terminal updates are not rejected; what does
hold is that `completed_at`, once set to a nonzero time, is never
overwritten by later updates. -/
theorem C1_update_unconditional (now : ℚ) (tasks : List (String × Task))
    (tid : String) (st : TaskStatus) (p : Option ℚ) (e : Option String)
    (r : Option JVal) (t : Task)
    (hfound : List.lookup tid tasks = some t) :
    (updateTaskStatus now tasks tid st p e r).1 = true ∧
    ∃ t2, List.lookup tid (updateTaskStatus now tasks tid st p e r).2.1
        = some t2 ∧
      t2.status = st ∧
      (∀ c : ℚ, t.completed_at = some c → c ≠ 0 → t2.completed_at = some c) := by
  unfold updateTaskStatus
  rw [hfound]
  refine ⟨rfl, ?_⟩
  rw [lookup_map_overwrite, hfound]
  simp only [Option.map_some', Option.map_some, eq_self_iff_true, if_true]
  refine ⟨_, rfl, ?_, ?_⟩
  · split
    · simp [applyFieldUpdates_status]
    · split
      · split
        · simp [applyFieldUpdates_status]
        · split
          · simp [applyFieldUpdates_status]
          · split <;> simp [applyFieldUpdates_status]
      · simp [applyFieldUpdates_status]
  · intro c hc hc0
    split
    · simp [applyFieldUpdates_completed_at, hc]
    · split
      · rename_i hfin
        exfalso
        rw [applyFieldUpdates_completed_at, hc] at hfin
        simp [qOptFalsy, hc0] at hfin
      · simp [applyFieldUpdates_completed_at, hc]

/-- Witness for C1's amended theorem: a post-terminal update to Failed on
the concrete Completed task is applied and reported true. -/
theorem C1_update_unconditional_witness :
    (updateTaskStatus 9 [("t", task0)] "t" TaskStatus.failed
        none none none).1 = true ∧
    ∃ t2, List.lookup "t" (updateTaskStatus 9 [("t", task0)] "t"
        TaskStatus.failed none none none).2.1 = some t2 ∧
      t2.status = TaskStatus.failed ∧
      (∀ c : ℚ, task0.completed_at = some c → c ≠ 0 →
        t2.completed_at = some c) :=
  C1_update_unconditional 9 [("t", task0)] "t" TaskStatus.failed
    none none none task0 rfl

/-- Claim C4: `broadcast_event` without a target list delivers the event
to exactly the subscribed active connections, appending one event to each
such connection's own queue and leaving every other connection — and
every other field — untouched; the result at index `i` is a function of
the input connection at index `i` alone, so an arbitrarily backed-up
queue on one connection (a stalled subscriber) cannot influence delivery
to any other, and with an explicit target list delivery is likewise
computed per connection.  The publisher-side function is total and puts
onto unbounded queues, so it returns without blocking regardless of queue
contents. -/
theorem C4_broadcast_isolated (now : ℚ) (et : String)
    (d : List (String × JVal)) (conns : List SSEConnection) :
    (∀ i : Nat, (broadcastEvent now et d none conns)[i]? =
      (conns[i]?).map (fun c =>
        if isSubscribed c et && c.active then
          { c with queue := c.queue ++
            [{ event := et, data := d, timestamp := now,
               connection_id := c.connection_id }] }
        else c)) ∧
    (∀ ts : List String, ∀ i : Nat,
      (broadcastEvent now et d (some ts) conns)[i]? =
      (conns[i]?).map (fun c =>
        ts.foldl (fun c2 tid =>
          if c2.connection_id = tid then sendEvent now c2 et d else c2) c)) := by
  constructor
  · intro i
    have hmap : broadcastEvent now et d none conns =
        conns.map (fun c =>
          if isSubscribed c et then sendEvent now c et d else c) := by
      unfold broadcastEvent
      cases conns <;> simp
    rw [hmap, List.getElem?_map]
    cases conns[i]? with
    | none => rfl
    | some c =>
      simp only [Option.map_some', Option.map_some]
      by_cases hs : isSubscribed c et
      · by_cases ha : c.active
        · simp [hs, ha, sendEvent]
        · simp [hs, ha, sendEvent]
      · simp [hs]
  · intro ts i
    have hfold : ∀ cs : List SSEConnection,
        ts.foldl (fun acc tid =>
          acc.map (fun c =>
            if c.connection_id = tid then sendEvent now c et d else c)) cs =
        cs.map (fun c =>
          ts.foldl (fun c2 tid =>
            if c2.connection_id = tid then sendEvent now c2 et d else c2) c) := by
      induction ts with
      | nil => intro cs; simp
      | cons a l ih =>
        intro cs
        rw [List.foldl_cons, ih, List.map_map]
        rfl
    have hmain : broadcastEvent now et d (some ts) conns =
        conns.map (fun c =>
          ts.foldl (fun c2 tid =>
            if c2.connection_id = tid then sendEvent now c2 et d else c2) c) := by
      unfold broadcastEvent
      cases hc : conns with
      | nil => simp
      | cons x xs => rw [if_neg (by simp)]; exact hfold (x :: xs)
    rw [hmain, List.getElem?_map]

/-- The scan of `_add_to_queue` stops exactly at the end of the prefix of
entries whose priority is at least the new task's. -/
theorem insertIndex_eq_takeWhile (prio : String → Nat) (p : Nat)
    (q : List String) :
    insertIndex prio p q =
      (q.takeWhile (fun x => decide (p ≤ prio x))).length := by
  induction q with
  | nil => rfl
  | cons h t ih =>
    unfold insertIndex
    by_cases hc : p > prio h
    · have hf : decide (p ≤ prio h) = false := by
        simp [Nat.not_le.mpr hc]
      rw [if_pos hc, List.takeWhile_cons, hf]
      rfl
    · have hf : decide (p ≤ prio h) = true := by
        simp [Nat.not_lt.mp hc]
      rw [if_neg hc, List.takeWhile_cons, hf, ih]
      rfl

/-- Inserting at the length of a takeWhile prefix splices the element
between that prefix and the matching dropWhile suffix. -/
theorem insertIdx_at_takeWhile {α : Type} (f : α → Bool) (a : α) (l : List α) :
    List.insertIdx (l.takeWhile f).length a l =
      l.takeWhile f ++ a :: l.dropWhile f := by
  induction l with
  | nil => rfl
  | cons h t ih =>
    by_cases hf : f h
    · rw [List.takeWhile_cons, List.dropWhile_cons]
      simp only [hf, if_true, List.length_cons, List.insertIdx_succ_cons,
        List.cons_append]
      rw [ih]
    · rw [List.takeWhile_cons, List.dropWhile_cons]
      simp [hf]

/-- On a queue sorted by descending priority, everything in the dropWhile
suffix has priority strictly below `p`. -/
theorem mem_dropWhile_prio_lt (prio : String → Nat) (p : Nat)
    (q : List String)
    (hq : List.Pairwise (fun a b => prio b ≤ prio a) q) :
    ∀ x ∈ q.dropWhile (fun x => decide (p ≤ prio x)), prio x < p := by
  induction q with
  | nil => simp
  | cons h t ih =>
    rw [List.dropWhile_cons]
    by_cases hf : p ≤ prio h
    · simp only [decide_eq_true hf, if_true]
      exact ih hq.of_cons
    · simp only [decide_eq_false hf, if_false]
      intro x hx
      rcases List.mem_cons.mp hx with hx1 | hx2
      · rw [hx1]; exact Nat.not_le.mp hf
      · exact Nat.lt_of_le_of_lt
          ((List.pairwise_cons.mp hq).1 x hx2) (Nat.not_le.mp hf)

/-- Claim C6: queue insertion keeps the pending queue ordered by
descending priority with FIFO order among equal priorities — the new task
is spliced after every queued entry of priority at least its own (in
particular after every earlier arrival of equal priority) and before
every entry of strictly lower priority, preserving the descending sort —
and `get_next_task` pops the queue head, which on a sorted queue is an
entry of maximal priority (the earliest-inserted among equals, since
later equals are always placed behind it), or returns none exactly when
the queue is empty. -/
theorem C6_queue_priority_fifo (prio : String → Nat) (tid : String)
    (q : List String)
    (hq : List.Pairwise (fun a b => prio b ≤ prio a) q) :
    addToQueue prio tid q =
      q.takeWhile (fun x => decide (prio tid ≤ prio x)) ++
        tid :: q.dropWhile (fun x => decide (prio tid ≤ prio x)) ∧
    (∀ x ∈ q.takeWhile (fun x => decide (prio tid ≤ prio x)),
      prio tid ≤ prio x) ∧
    (∀ x ∈ q.dropWhile (fun x => decide (prio tid ≤ prio x)),
      prio x < prio tid) ∧
    List.Pairwise (fun a b => prio b ≤ prio a) (addToQueue prio tid q) ∧
    (getNextTask q).1 = q.head? ∧
    (getNextTask q).2 = q.tail ∧
    ((getNextTask q).1 = none ↔ q = []) ∧
    (∀ h, (getNextTask q).1 = some h → ∀ x ∈ q, prio x ≤ prio h) := by
  have hdecomp : addToQueue prio tid q =
      q.takeWhile (fun x => decide (prio tid ≤ prio x)) ++
        tid :: q.dropWhile (fun x => decide (prio tid ≤ prio x)) := by
    unfold addToQueue
    rw [insertIndex_eq_takeWhile, insertIdx_at_takeWhile]
  have htake : ∀ x ∈ q.takeWhile (fun x => decide (prio tid ≤ prio x)),
      prio tid ≤ prio x := by
    intro x hx
    have h2 := List.mem_takeWhile_imp hx
    simpa using h2
  have hdrop := mem_dropWhile_prio_lt prio (prio tid) q hq
  refine ⟨hdecomp, htake, hdrop, ?_, ?_, ?_, ?_, ?_⟩
  · rw [hdecomp, List.pairwise_append]
    refine ⟨hq.sublist (List.takeWhile_sublist _), ?_, ?_⟩
    · rw [List.pairwise_cons]
      refine ⟨?_, hq.sublist (List.dropWhile_sublist _)⟩
      intro b hb
      exact Nat.le_of_lt (hdrop b hb)
    · intro a ha b hb
      rcases List.mem_cons.mp hb with hb1 | hb2
      · rw [hb1]; exact htake a ha
      · exact Nat.le_of_lt (Nat.lt_of_lt_of_le (hdrop b hb2) (htake a ha))
  · cases q <;> rfl
  · cases q <;> rfl
  · cases q <;> simp [getNextTask]
  · intro h hh x hx
    cases q with
    | nil => simp at hx
    | cons y ys =>
      have hy : h = y := by
        simpa [getNextTask] using hh.symm
      rcases List.mem_cons.mp hx with hx1 | hx2
      · rw [hx1, hy]
      · rw [hy]
        exact (List.pairwise_cons.mp hq).1 x hx2

/-- Witness for C6 on the concrete sorted queue ["a", "b"] receiving the
equal-priority task "c". -/
theorem C6_queue_priority_fifo_witness :
    addToQueue prio0 "c" ["a", "b"] =
      (["a", "b"].takeWhile (fun x => decide (prio0 "c" ≤ prio0 x))) ++
        "c" :: (["a", "b"].dropWhile (fun x => decide (prio0 "c" ≤ prio0 x))) ∧
    (∀ x ∈ ["a", "b"].takeWhile (fun x => decide (prio0 "c" ≤ prio0 x)),
      prio0 "c" ≤ prio0 x) ∧
    (∀ x ∈ ["a", "b"].dropWhile (fun x => decide (prio0 "c" ≤ prio0 x)),
      prio0 x < prio0 "c") ∧
    List.Pairwise (fun a b => prio0 b ≤ prio0 a)
      (addToQueue prio0 "c" ["a", "b"]) ∧
    (getNextTask ["a", "b"]).1 = ["a", "b"].head? ∧
    (getNextTask ["a", "b"]).2 = ["a", "b"].tail ∧
    ((getNextTask ["a", "b"]).1 = none ↔ ["a", "b"] = ([] : List String)) ∧
    (∀ h, (getNextTask ["a", "b"]).1 = some h →
      ∀ x ∈ ["a", "b"], prio0 x ≤ prio0 h) :=
  C6_queue_priority_fifo prio0 "c" ["a", "b"] (by decide)

/-- Counterexample to claim C7 as stated: the tools/call request for
execute_command without a `command` argument is answered with error code
-32603 (InternalError) — the `ValueError` raised by the missing-argument
check is swallowed by the generic exception handler of
`_handle_tools_call` — not with InvalidParams -32602 as claimed. -/
theorem C7_counterexample :
    responseErrorCode (handleMessage extDummy msgNoCommand) = some (-32603) ∧
    ¬ responseErrorCode (handleMessage extDummy msgNoCommand)
        = some (-32602) := by
  refine ⟨rfl, ?_⟩
  intro h
  rw [show responseErrorCode (handleMessage extDummy msgNoCommand)
      = some (-32603) from rfl] at h
  simp at h

/-- Claim C7 as amended: a tools/call request invoking execute_command
whose arguments lack a (truthy) `command` field is answered with a
JSON-RPC error of code -32603 (InternalError, message "工具调用失败: 缺少
命令参数"); the code -32602 is reserved for unknown tool names in this
handler. -/
theorem C7_missing_command_internal_error (ext : Ext) (n : Int)
    (args : List (String × JVal))
    (hmissing : jfalsyOpt (jlookup args "command") = true) :
    handleMessage ext
      [("jsonrpc", JVal.jstr "2.0"),
       ("id", JVal.jnum n),
       ("method", JVal.jstr "tools/call"),
       ("params", JVal.jobj
         [("name", JVal.jstr "execute_command"),
          ("arguments", JVal.jobj args)])] =
      some (errorResponse (some (JVal.jnum n)) (-32603)
        "工具调用失败: 缺少命令参数") := by
  unfold handleMessage parseMessage validateMessageStructure requestSchemaOk
  simp only [jlookup, List.lookup, beq_self_eq_true, if_true]
  unfold toolsCallResponse executeCommandTool wrapToolOutcome
  have hm2 : jfalsyOpt (List.lookup "command" args) = true := hmissing
  simp [jlookup, List.lookup, allowedRequestKeys, hm2]

/-- Witness for C7's amended theorem at the concrete request with empty
arguments. -/
theorem C7_missing_command_internal_error_witness :
    handleMessage extDummy
      [("jsonrpc", JVal.jstr "2.0"),
       ("id", JVal.jnum 7),
       ("method", JVal.jstr "tools/call"),
       ("params", JVal.jobj
         [("name", JVal.jstr "execute_command"),
          ("arguments", JVal.jobj [])])] =
      some (errorResponse (some (JVal.jnum 7)) (-32603)
        "工具调用失败: 缺少命令参数") :=
  C7_missing_command_internal_error extDummy 7 [] rfl

/-- Counterexample to claim C8 as stated: the message `{"jsonrpc": "2.0",
"id": 2}` carries no `method` (and is not a well-formed response, lacking
both `result` and `error`), yet the gateway answers with code -32603
(InternalError) — the "无法确定消息类型" ValueError lands in the generic
exception handler — not with InvalidRequest -32600 as claimed. -/
theorem C8_counterexample :
    responseErrorCode (handleMessage extDummy
      [("jsonrpc", JVal.jstr "2.0"), ("id", JVal.jnum 2)])
      = some (-32603) ∧
    ¬ responseErrorCode (handleMessage extDummy
      [("jsonrpc", JVal.jstr "2.0"), ("id", JVal.jnum 2)])
      = some (-32600) := by
  refine ⟨rfl, ?_⟩
  intro h
  rw [show responseErrorCode (handleMessage extDummy
      [("jsonrpc", JVal.jstr "2.0"), ("id", JVal.jnum 2)])
      = some (-32603) from rfl] at h
  simp at h

/-- Claim C8 as amended: an inbound message that lacks a `method` member
and is not a response (no `result`, no `error`) is answered with an
InternalError response, code -32603, echoing the raw message's id — the
code -32600 (InvalidRequest) is never produced by this gateway. -/
theorem C8_no_method_internal_error (ext : Ext) (d : List (String × JVal))
    (hm : jlookup d "method" = none) (hr : jlookup d "result" = none)
    (he : jlookup d "error" = none) :
    handleMessage ext d =
      some (errorResponse (jlookup d "id") (-32603)
        "内部错误: 消息解析异常: 无法确定消息类型") := by
  unfold handleMessage parseMessage validateMessageStructure
  rw [hm, hr, he]
  rfl

/-- Witness for C8's amended theorem at the concrete method-less
message. -/
theorem C8_no_method_internal_error_witness :
    handleMessage extDummy [("jsonrpc", JVal.jstr "2.0"), ("id", JVal.jnum 2)] =
      some (errorResponse
        (jlookup [("jsonrpc", JVal.jstr "2.0"), ("id", JVal.jnum 2)] "id")
        (-32603) "内部错误: 消息解析异常: 无法确定消息类型") :=
  C8_no_method_internal_error extDummy
    [("jsonrpc", JVal.jstr "2.0"), ("id", JVal.jnum 2)] rfl rfl rfl

/-- Counterexample to claim C9 as stated: the notification
`{"jsonrpc": "2.0", "method": "tools/list"}` (a method, no id) is not
only processed but also answered — `handle_message` returns a truthy
response dict (with `"id": null`), and the handler's `if response:`
check therefore sends it back to the client. -/
theorem C9_counterexample :
    sendsResponse extDummy notifToolsList = true ∧
    handleMessage extDummy notifToolsList =
      some (toolsListResponse
        { id := none, method := some "tools/list", params := none,
          result := none, error := none }) ∧
    mcpSsePostReply extDummy notifToolsList =
      toolsListResponse
        { id := none, method := some "tools/list", params := none,
          result := none, error := none } := by
  refine ⟨rfl, rfl, rfl⟩

/-- Every outcome of `wrapToolOutcome` is a response object headed by the
jsonrpc tag. -/
theorem wrapToolOutcome_obj (idv : Option JVal) (o : Except String JVal) :
    ∃ fields, wrapToolOutcome idv o =
      JVal.jobj (("jsonrpc", JVal.jstr "2.0") :: fields) := by
  cases o with
  | ok r => exact ⟨_, rfl⟩
  | error e => exact ⟨_, rfl⟩

/-- Every branch of `_handle_tools_call` produces a response object
headed by the jsonrpc tag. -/
theorem toolsCallResponse_obj (ext : Ext) (m : MCPMessage) :
    ∃ fields, toolsCallResponse ext m =
      JVal.jobj (("jsonrpc", JVal.jstr "2.0") :: fields) := by
  simp only [toolsCallResponse]
  split
  · exact wrapToolOutcome_obj _ _
  · exact wrapToolOutcome_obj _ _
  · exact wrapToolOutcome_obj _ _
  · exact ⟨_, rfl⟩

/-- `handle_message` answers every message with a response object headed
by the jsonrpc tag. -/
theorem handleMessage_responds (ext : Ext) (d : List (String × JVal)) :
    ∃ fields, handleMessage ext d =
      some (JVal.jobj (("jsonrpc", JVal.jstr "2.0") :: fields)) := by
  rw [show handleMessage ext d = (match parseMessage d with
    | Except.error e =>
      some (errorResponse (jlookup d "id") (-32603) ("内部错误: " ++ e))
    | Except.ok m =>
      match m.method with
      | some "initialize" => some (initializeResponse m)
      | some "tools/list" => some (toolsListResponse m)
      | some "tools/call" => some (toolsCallResponse ext m)
      | some "resources/list" => some (resourcesListResponse m)
      | some "prompts/list" => some (promptsListResponse m)
      | other => some (errorResponse m.id (-32601)
          ("未知方法: " ++ other.getD "None")) : Option JVal) from rfl]
  cases parseMessage d with
  | error e => exact ⟨_, rfl⟩
  | ok m =>
    dsimp only
    split
    · exact ⟨_, rfl⟩
    · exact ⟨_, rfl⟩
    · obtain ⟨f3, h3⟩ := toolsCallResponse_obj ext m
      exact ⟨f3, by rw [h3]⟩
    · exact ⟨_, rfl⟩
    · exact ⟨_, rfl⟩
    · exact ⟨_, rfl⟩

/-- Claim C9 as amended: every inbound message — notifications carrying a
method but no id included — is processed and answered: `handle_message`
always returns a (truthy, non-empty) response dict, and the handler's
`if response:` guard therefore always sends it; for a notification the
response simply carries `"id": null`. -/
theorem C9_notifications_answered (ext : Ext) (d : List (String × JVal)) :
    ∃ r, handleMessage ext d = some r ∧ jfalsy r = false ∧
      sendsResponse ext d = true := by
  obtain ⟨fields, hf⟩ := handleMessage_responds ext d
  refine ⟨_, hf, rfl, ?_⟩
  unfold sendsResponse
  rw [hf]
  rfl

end KaliSse
